import Mathlib

set_option maxRecDepth 10000

/-!
Verification development for `scripts/generate_icons.py`, a one-shot icon
generator: it rasterizes the letter "Q" onto square RGBA canvases at several
sizes, writes PNG files, packs a two-resolution ICO container, and emits a
fixed SVG favicon.

Modelling conventions:
* Every float the script computes is an exact integer multiple of 1/1000
  (the constants have at most three decimals and the only divisions are
  halvings of integers), so float-valued quantities are embedded exactly as
  integer numerators over the fixed denominator 1000 ("milli-units"):
  a source value `v` is carried as the integer `1000 · v`.  Python's `int()`
  is truncation toward zero (`pyInt`).  Pixel-valued quantities (bounding
  boxes, the `line_*` locals) stay in ordinary units.
* The font engine (loading a font, measuring `textbbox`, rasterizing the
  antialiased glyph) is an external library; it is abstracted as a
  `FontEnv`: a metrics function `bbox` and a rasterization function `ink`
  giving the final colour contributed by the glyph at a pixel, together with
  the guarantee that the glyph's ink stays within one pixel of the measured
  bounding box translated to the draw position (which is what `textbbox`
  means).
* A canvas is a width, a height and a total pixel colouring function; the
  drawing calls of `create_icon` become a list of `DrawOp`s rendered in
  order, mirroring the source's statement order.
-/

/-- An RGBA colour, one byte per channel (PIL `RGBA` mode). -/
structure Color where
  r : ℕ
  g : ℕ
  b : ℕ
  a : ℕ
deriving DecidableEq

/-- `BG_COLOR = (10, 9, 8, 255)`, the `#0A0908` background. -/
def BG_COLOR : Color := ⟨10, 9, 8, 255⟩

/-- `TEXT_COLOR = (240, 237, 230, 255)`, the `#F0EDE6` primary text colour. -/
def TEXT_COLOR : Color := ⟨240, 237, 230, 255⟩

/-- `WINE_COLOR = (139, 74, 92, 255)`, the `#8B4A5C` wine accent. -/
def WINE_COLOR : Color := ⟨139, 74, 92, 255⟩

/-- Python `int()` applied to the float carried by the milli-unit integer
`vmil` (that is, to the value `vmil / 1000`): truncation toward zero. -/
def pyInt (vmil : ℤ) : ℤ := vmil.tdiv 1000

/-- A text bounding box as returned by `ImageDraw.textbbox((0, 0), 'Q', font)`:
left, top, right, bottom pixel offsets from the draw origin. -/
structure BBox where
  x0 : ℤ
  y0 : ℤ
  x1 : ℤ
  y1 : ℤ
deriving DecidableEq

/-- The font engine, abstracted.  `bbox fs` is the measured bounding box of
the glyph "Q" at point size `fs` (anchored at the origin).  `ink fs pos p`
is the colour the antialiased glyph drawn at position `pos` (milli-units)
contributes to pixel `p` (`none` where the glyph has zero coverage); the
blend of `TEXT_COLOR` over the uniform background is baked into the
returned colour.  `ink_in_bbox` records the meaning of `textbbox`: ink only
appears within one pixel of the translated bounding box (the inequalities
compare `1000 ·` pixel coordinates against milli-unit positions). -/
structure FontEnv where
  bbox : ℕ → BBox
  ink : ℕ → ℤ × ℤ → ℤ × ℤ → Option Color
  ink_in_bbox : ∀ fs pos p c, ink fs pos p = some c →
    pos.1 + 1000 * (bbox fs).x0 - 1000 < 1000 * p.1 ∧
    1000 * p.1 < pos.1 + 1000 * (bbox fs).x1 + 1000 ∧
    pos.2 + 1000 * (bbox fs).y0 - 1000 < 1000 * p.2 ∧
    1000 * p.2 < pos.2 + 1000 * (bbox fs).y1 + 1000

/-- A raster canvas: dimensions plus a pixel colouring. -/
structure Icon where
  width : ℕ
  height : ℕ
  pixel : ℤ → ℤ → Color

instance : Inhabited Icon := ⟨⟨0, 0, fun _ _ => BG_COLOR⟩⟩

/-- One drawing statement of `create_icon`, in source order:
`Image.new` (a full fill), `draw.text` (position in milli-units),
`draw.rectangle` (pixel corners). -/
inductive DrawOp where
  | fill (w h : ℕ) (c : Color)
  | text (pos : ℤ × ℤ) (fs : ℕ) (c : Color)
  | rect (x0 y0 x1 y1 : ℤ) (c : Color)

/-- Render one drawing statement over the current canvas contents.  PIL's
`rectangle` includes both corner points.  For `text`, pixels covered by the
glyph take the colour reported by the font engine, others keep their value. -/
def applyOp (F : FontEnv) (cur : ℤ → ℤ → Color) (op : DrawOp) : ℤ → ℤ → Color :=
  match op with
  | .fill _ _ c => fun _ _ => c
  | .text pos fs _ => fun px py => (F.ink fs pos (px, py)).getD (cur px py)
  | .rect x0 y0 x1 y1 c => fun px py =>
      if x0 ≤ px ∧ px ≤ x1 ∧ y0 ≤ py ∧ py ≤ y1 then c else cur px py

/-- Render a list of drawing statements in order (initial contents are
irrelevant: the first op is always the `Image.new` fill). -/
def renderOps (F : FontEnv) (ops : List DrawOp) : ℤ → ℤ → Color :=
  ops.foldl (applyOp F) (fun _ _ => ⟨0, 0, 0, 0⟩)

/-- `font_size = int(size * 0.72)` (line 32). -/
def font_size_of (size : ℕ) : ℕ := 72 * size / 100

/-- `bbox = draw.textbbox((0, 0), 'Q', font=font)` (line 36). -/
def bb_of (F : FontEnv) (size : ℕ) : BBox := F.bbox (font_size_of size)

/-- `text_w = bbox[2] - bbox[0]` (line 37). -/
def text_w_of (F : FontEnv) (size : ℕ) : ℤ := (bb_of F size).x1 - (bb_of F size).x0

/-- `text_h = bbox[3] - bbox[1]` (line 38). -/
def text_h_of (F : FontEnv) (size : ℕ) : ℤ := (bb_of F size).y1 - (bb_of F size).y0

/-- `x = (size - text_w) / 2 - bbox[0]` (line 41), in milli-units:
`1000 · x = 500 · (size - text_w) - 1000 · bbox[0]`. -/
def x_of (F : FontEnv) (size : ℕ) : ℤ :=
  500 * ((size : ℤ) - text_w_of F size) - 1000 * (bb_of F size).x0

/-- `y = (size - text_h) / 2 - bbox[1] - (size * 0.03)` (line 42), in
milli-units. -/
def y_of (F : FontEnv) (size : ℕ) : ℤ :=
  500 * ((size : ℤ) - text_h_of F size) - 1000 * (bb_of F size).y0 - 30 * (size : ℤ)

/-- `line_y = int(y + text_h + bbox[1] + size * 0.02)` (line 48); the
argument in milli-units, the result in pixels. -/
def line_y_of (F : FontEnv) (size : ℕ) : ℤ :=
  pyInt (y_of F size + 1000 * text_h_of F size + 1000 * (bb_of F size).y0 + 20 * (size : ℤ))

/-- `line_h = max(1, int(size * 0.015))` (line 49). -/
def line_h_of (size : ℕ) : ℤ := max 1 (pyInt (15 * (size : ℤ)))

/-- `line_w = int(size * 0.2)` (line 50). -/
def line_w_of (size : ℕ) : ℤ := pyInt (200 * (size : ℤ))

/-- `line_x = int((size - line_w) / 2)` (line 51). -/
def line_x_of (size : ℕ) : ℤ := pyInt (500 * ((size : ℤ) - line_w_of size))

/-- The drawing statements executed by `create_icon size`:
the `Image.new` background fill (line 28), the glyph draw (line 45), and —
only when `size >= 64` (line 54) — the accent-bar rectangle (lines 55-58). -/
def ops_of (F : FontEnv) (size : ℕ) : List DrawOp :=
  [DrawOp.fill size size BG_COLOR,
   DrawOp.text (x_of F size, y_of F size) (font_size_of size) TEXT_COLOR] ++
  (if 64 ≤ size then
    [DrawOp.rect (line_x_of size) (line_y_of F size)
      (line_x_of size + line_w_of size) (line_y_of F size + line_h_of size) WINE_COLOR]
   else [])

/-- The result of `create_icon`: the locals of the source function plus the
finished canvas (the function returns `img`; the PNG write and the console
line are modelled in the orchestration trace below).  `x` and `y` are in
milli-units, everything else in pixels. -/
structure IconResult where
  font_size : ℕ
  bb : BBox
  text_w : ℤ
  text_h : ℤ
  x : ℤ
  y : ℤ
  line_x : ℤ
  line_y : ℤ
  line_w : ℤ
  line_h : ℤ
  ops : List DrawOp
  img : Icon

/-- `create_icon(size, output_path)` (lines 26-62), drawing side only. -/
def create_icon (F : FontEnv) (size : ℕ) : IconResult :=
  { font_size := font_size_of size
    bb := bb_of F size
    text_w := text_w_of F size
    text_h := text_h_of F size
    x := x_of F size
    y := y_of F size
    line_x := line_x_of size
    line_y := line_y_of F size
    line_w := line_w_of size
    line_h := line_h_of size
    ops := ops_of F size
    img := ⟨size, size, renderOps F (ops_of F size)⟩ }

/-- A degenerate font environment (empty glyph, zero bounding box), used to
instantiate theorems at concrete inputs. -/
def trivialFont : FontEnv :=
  { bbox := fun _ => ⟨0, 0, 0, 0⟩
    ink := fun _ _ _ => none
    ink_in_bbox := fun _ _ _ _ h => Option.noConfusion h }

/-! ### The ICO container (`create_ico`, lines 65-71)

The container write itself is the image library's ICO save routine.  Its
behaviour, modelled from that library: for each requested size (filtered to
at most the base image's dimensions and at most 256) it embeds the provided
image of exactly that size when one exists — the base image first, then the
appended images — and only otherwise falls back to a resampled copy of the
base image.  Each frame is tagged with whether the fallback resampling
produced it. -/

/-- Nearest-neighbour resampling (the fallback path of the ICO save; never
taken by this program's call). -/
def resizeIcon (im : Icon) (sz : ℕ × ℕ) : Icon :=
  ⟨sz.1, sz.2, fun px py =>
    im.pixel (px * (im.width : ℤ) / (sz.1 : ℤ)) (py * (im.height : ℤ) / (sz.2 : ℤ))⟩

/-- The frames the ICO save embeds for a base image, appended images and a
requested size list; the `Bool` is `true` when the frame was resampled
rather than taken verbatim from a provided image. -/
def icoSaveFrames (base : Icon) (appended : List Icon) (sizes : List (ℕ × ℕ)) :
    List (Icon × Bool) :=
  (sizes.filter fun sz =>
      decide (sz.1 ≤ base.width ∧ sz.2 ≤ base.height ∧ sz.1 ≤ 256 ∧ sz.2 ≤ 256)).map
    fun sz =>
      match (base :: appended).find? (fun im => im.width == sz.1 && im.height == sz.2) with
      | some im => (im, false)
      | none => (resizeIcon base sz, true)

/-- `create_ico(images_16_32, output_path)` (lines 65-71), save contents only:
`img_32 = images_16_32[1]` is the base of the save, `img_16 = images_16_32[0]`
is appended, and the requested sizes are `[(16, 16), (32, 32)]`. -/
def create_ico_frames (images_16_32 : List Icon) : List (Icon × Bool) :=
  icoSaveFrames (images_16_32.getD 1 default) [images_16_32.getD 0 default]
    [(16, 16), (32, 32)]

/-! ### The SVG favicon (`create_svg_favicon`, lines 74-92) -/

/-- The fixed SVG document written by `create_svg_favicon` (lines 76-89). -/
def svgContent : String :=
  "<svg xmlns=\"http://www.w3.org/2000/svg\" viewBox=\"0 0 100 100\">\n  <style>\n    rect \x7b fill: #0A0908; \x7d\n    text \x7b fill: #F0EDE6; \x7d\n    line \x7b stroke: #8B4A5C; \x7d\n    @media (prefers-color-scheme: light) \x7b\n      rect \x7b fill: #FAF9F7; \x7d\n      text \x7b fill: #1A1918; \x7d\n    \x7d\n  </style>\n  <rect width=\"100\" height=\"100\" rx=\"12\"/>\n  <text x=\"50\" y=\"72\" font-family=\"\x27Cormorant Garamond\x27,Georgia,serif\" font-size=\"72\" font-weight=\"300\" text-anchor=\"middle\">Q</text>\n  <line x1=\"40\" y1=\"80\" x2=\"60\" y2=\"80\" stroke-width=\"1.5\" stroke-linecap=\"round\"/>\n</svg>"

/-- Number of positions at which `pat` occurs as a contiguous sublist. -/
def countSub : List Char → List Char → ℕ
  | [], _ => 0
  | c :: rest, pat => (if pat.isPrefixOf (c :: rest) then 1 else 0) + countSub rest pat

/-- Number of occurrences of `pat` inside `s`. -/
def countOccur (s pat : String) : ℕ := countSub s.data pat.data

/-! ### Orchestration (`main`, lines 95-129)

`main` is modelled twice, from the same statement list of the source: as an
observable event trace (`mainEvents`: directory creation, file writes, the
per-file "Created …" console lines and the other console lines), and as the
file contents it produces (`mainFiles`), which require an environment `Env`
supplying the font engine and the PNG/ICO byte encoders. -/

/-- The two directories the script touches: `STATIC_DIR` (the output
directory) and the `TEMP` directory. -/
inductive Dir where
  | static
  | temp
deriving DecidableEq

/-- An observable event of a run: `os.makedirs`, a file write, the
"  Created …" summary line a file write is reported with, or any other
console line. -/
inductive Ev where
  | makedirs (d : Dir)
  | writeFile (d : Dir) (name : String)
  | printCreated (d : Dir) (name : String)
  | printLine (s : String)
deriving DecidableEq

/-- The events of one `create_icon(size, path)` call: the PNG write (line 60)
followed by its summary line (line 61). -/
def iconEv (d : Dir) (name : String) : List Ev :=
  [Ev.writeFile d name, Ev.printCreated d name]

/-- The event trace of `main()` (lines 95-129), in source order. -/
def mainEvents : List Ev :=
  [Ev.makedirs Dir.static, Ev.printLine ("Generating Qvé icon set...\n")] ++
  iconEv Dir.static ("favicon-32x32.png") ++
  iconEv Dir.static ("icon-192.png") ++
  iconEv Dir.static ("icon-512.png") ++
  iconEv Dir.temp ("icon-16.png") ++
  [Ev.writeFile Dir.static ("favicon.ico"), Ev.printCreated Dir.static ("favicon.ico")] ++
  [Ev.writeFile Dir.static ("favicon.svg"), Ev.printCreated Dir.static ("favicon.svg")] ++
  iconEv Dir.static ("apple-touch-icon.png") ++
  [Ev.printLine ("\nDone! Generated:"),
   Ev.printLine ("  - favicon.ico (16+32, proper ICO format)"),
   Ev.printLine ("  - favicon.svg (scalable, dark mode aware)"),
   Ev.printLine ("  - favicon-32x32.png"),
   Ev.printLine ("  - apple-touch-icon.png (180x180)"),
   Ev.printLine ("  - icon-192.png (PWA)"),
   Ev.printLine ("  - icon-512.png (PWA install/splash)")]

/-- The contents of one written file. -/
inductive FileData where
  | png (bytes : List ℕ)
  | ico (bytes : List ℕ)
  | textFile (s : String)

/-- The run environment: the font engine and the (deterministic) PNG and ICO
byte encoders of the image library. -/
structure Env where
  font : FontEnv
  pngEncode : Icon → List ℕ
  icoEncode : List (Icon × Bool) → List ℕ

/-- The files `main()` writes, in write order, as `(directory, name,
contents)`: the three PNG icons, the transient 16×16 PNG placed in the TEMP
directory (line 112), the ICO container built from the independently
rendered 16×16 and 32×32 canvases (line 115), the SVG favicon and the
180×180 apple-touch icon. -/
def mainFiles (E : Env) : List (Dir × String × FileData) :=
  [(Dir.static, "favicon-32x32.png", FileData.png (E.pngEncode (create_icon E.font 32).img)),
   (Dir.static, "icon-192.png", FileData.png (E.pngEncode (create_icon E.font 192).img)),
   (Dir.static, "icon-512.png", FileData.png (E.pngEncode (create_icon E.font 512).img)),
   (Dir.temp, "icon-16.png", FileData.png (E.pngEncode (create_icon E.font 16).img)),
   (Dir.static, "favicon.ico", FileData.ico (E.icoEncode
      (create_ico_frames [(create_icon E.font 16).img, (create_icon E.font 32).img]))),
   (Dir.static, "favicon.svg", FileData.textFile svgContent),
   (Dir.static, "apple-touch-icon.png", FileData.png (E.pngEncode (create_icon E.font 180).img))]

/-- A degenerate run environment, used to instantiate theorems. -/
def trivialEnv : Env := ⟨trivialFont, fun _ => [], fun _ => []⟩

/-- The key of the one environment variable the script reads (line 16). -/
def TEMP_KEY : String := "TEMP"

/-- A Python exception terminating the run. -/
inductive PyErr where
  | keyError (k : String)
deriving DecidableEq

/-- A whole invocation of the script: the module body first evaluates
`os.environ['TEMP']` (line 16) — raising `KeyError` when the variable is
unset, with no observable event having occurred — and only then, under the
`__main__` guard (line 132), runs `main()`. -/
def runProgram (env : String → Option String) (E : Env) :
    Except PyErr Unit × List Ev :=
  match env TEMP_KEY with
  | none => (Except.error (PyErr.keyError TEMP_KEY), [])
  | some _ => (Except.ok (), mainEvents)

/-! ### Helper lemmas -/

/-- On nonnegative milli-values, Python truncation is euclidean division of
the numerator by 1000. -/
theorem pyInt_of_nonneg (v : ℤ) (h : 0 ≤ v) : pyInt v = v / 1000 :=
  Int.tdiv_eq_ediv h (by norm_num)

/-! ### Claim theorems -/

/-- C5 (counterexample): at the actually rendered size 32, the font point
size `int(32 * 0.72) = 23` is not equal to `0.72 × 32 = 23.04` (the equality
`font_size = 0.72 · S` is `100 · font_size = 72 · S`). -/
theorem font_size_at_32_not_072_times :
    ¬ (100 * (create_icon trivialFont 32).font_size = 72 * 32) := by decide

/-- C5 (amended): for every size `S`, the font for the glyph is loaded at
integer point size `⌊0.72 · S⌋`, the truncation of `0.72 · S` — the unique
natural number `n` with `n ≤ 0.72 · S < n + 1`. -/
theorem font_size_is_truncated_072 (F : FontEnv) (S : ℕ) :
    100 * (create_icon F S).font_size ≤ 72 * S ∧
    72 * S < 100 * ((create_icon F S).font_size + 1) := by
  show 100 * font_size_of S ≤ 72 * S ∧ 72 * S < 100 * (font_size_of S + 1)
  unfold font_size_of
  omega

/-- C6: the glyph draw offset centers the measured bounding box: the offset
is `(S - text_w) / 2` adjusted by the bounding-box origin, so the box's
horizontal centre lands at `S / 2` and its vertical centre at `S / 2` minus
the 3%-of-size upward nudge (`x` and `y` carry milli-units, hence the
`/ 1000`). -/
theorem glyph_offset_centers (F : FontEnv) (S : ℕ) :
    ((create_icon F S).x : ℚ) / 1000 + ((create_icon F S).bb.x0 : ℚ) +
        ((create_icon F S).text_w : ℚ) / 2 = (S : ℚ) / 2 ∧
    ((create_icon F S).y : ℚ) / 1000 + ((create_icon F S).bb.y0 : ℚ) +
        ((create_icon F S).text_h : ℚ) / 2 = (S : ℚ) / 2 - (S : ℚ) * (3 / 100) ∧
    ((create_icon F S).x : ℚ) / 1000 =
      ((S : ℚ) - ((create_icon F S).text_w : ℚ)) / 2 - ((create_icon F S).bb.x0 : ℚ) := by
  have e1 : (create_icon F S).x = x_of F S := rfl
  have e2 : (create_icon F S).y = y_of F S := rfl
  have e3 : (create_icon F S).bb = bb_of F S := rfl
  have e4 : (create_icon F S).text_w = text_w_of F S := rfl
  have e5 : (create_icon F S).text_h = text_h_of F S := rfl
  rw [e1, e2, e3, e4, e5]
  unfold x_of y_of text_w_of text_h_of
  refine ⟨?_, ?_, ?_⟩ <;> push_cast <;> ring

/-- C7 (counterexample): at the actually rendered size 192 (which is ≥ 64),
the accent bar width `int(192 * 0.2) = 38` is not 20% of 192 (= 38.4); the
claimed equality `line_w = 0.2 · S` is `10 · line_w = 2 · S`. -/
theorem line_w_at_192_not_twenty_percent :
    ¬ (10 * (create_icon trivialFont 192).line_w = 2 * 192) := by decide

/-- C7 (amended): for `S ≥ 64` the accent bar has width `⌊0.2 · S⌋`
(characterized by `5·w ≤ S < 5·w + 5`), height `max(1, ⌊0.015 · S⌋)`
(characterized by the three height conjuncts), is horizontally centered up
to the truncation (`2·line_x ≤ S - line_w < 2·line_x + 2`), its vertical
position is the truncation of the glyph's visual bottom (baseline plus
descender offset, `y + bbox.y1`) plus 2% of `S`, and a rectangle of exactly
this geometry is drawn in the accent colour. -/
theorem accent_bar_geometry (F : FontEnv) (S : ℕ) (h64 : 64 ≤ S) :
    5 * (create_icon F S).line_w ≤ (S : ℤ) ∧
    (S : ℤ) < 5 * (create_icon F S).line_w + 5 ∧
    1 ≤ (create_icon F S).line_h ∧
    15 * (S : ℤ) < 1000 * (create_icon F S).line_h + 1000 ∧
    (1000 * (create_icon F S).line_h ≤ 15 * (S : ℤ) ∨ (create_icon F S).line_h = 1) ∧
    2 * (create_icon F S).line_x ≤ (S : ℤ) - (create_icon F S).line_w ∧
    (S : ℤ) - (create_icon F S).line_w < 2 * (create_icon F S).line_x + 2 ∧
    (create_icon F S).line_y =
      pyInt ((create_icon F S).y + 1000 * (create_icon F S).bb.y1 + 20 * (S : ℤ)) ∧
    DrawOp.rect (create_icon F S).line_x (create_icon F S).line_y
        ((create_icon F S).line_x + (create_icon F S).line_w)
        ((create_icon F S).line_y + (create_icon F S).line_h) WINE_COLOR ∈
      (create_icon F S).ops := by
  have e1 : (create_icon F S).line_w = line_w_of S := rfl
  have e2 : (create_icon F S).line_h = line_h_of S := rfl
  have e3 : (create_icon F S).line_x = line_x_of S := rfl
  have e4 : (create_icon F S).line_y = line_y_of F S := rfl
  have e5 : (create_icon F S).y = y_of F S := rfl
  have e6 : (create_icon F S).bb = bb_of F S := rfl
  have e7 : (create_icon F S).ops = ops_of F S := rfl
  rw [e1, e2, e3, e4, e5, e6, e7]
  have hw : line_w_of S = 200 * (S : ℤ) / 1000 := pyInt_of_nonneg _ (by positivity)
  have hxnn : 0 ≤ 500 * ((S : ℤ) - line_w_of S) := by omega
  have hx : line_x_of S = 500 * ((S : ℤ) - line_w_of S) / 1000 :=
    pyInt_of_nonneg _ hxnn
  have hh : line_h_of S = max 1 (15 * (S : ℤ) / 1000) := by
    unfold line_h_of
    rw [pyInt_of_nonneg _ (by positivity)]
  have hh1 : 1 ≤ line_h_of S := by rw [hh]; exact le_max_left _ _
  have hh2 : 15 * (S : ℤ) / 1000 ≤ line_h_of S := by rw [hh]; exact le_max_right _ _
  have hhc : line_h_of S = 1 ∨ line_h_of S = 15 * (S : ℤ) / 1000 := by
    rw [hh]; exact max_choice _ _
  refine ⟨by omega, by omega, hh1, by omega, by omega, by omega, by omega, ?_, ?_⟩
  · unfold line_y_of
    congr 1
    unfold text_h_of
    ring
  · simp [ops_of, h64]

/-- C7 (witness): the amended geometry at the concrete size 64. -/
theorem accent_bar_geometry_at_64 :
    64 ≤ 64 ∧
    (5 * (create_icon trivialFont 64).line_w ≤ (64 : ℤ) ∧
     (64 : ℤ) < 5 * (create_icon trivialFont 64).line_w + 5 ∧
     1 ≤ (create_icon trivialFont 64).line_h ∧
     15 * (64 : ℤ) < 1000 * (create_icon trivialFont 64).line_h + 1000 ∧
     (1000 * (create_icon trivialFont 64).line_h ≤ 15 * (64 : ℤ) ∨
       (create_icon trivialFont 64).line_h = 1) ∧
     2 * (create_icon trivialFont 64).line_x ≤ (64 : ℤ) - (create_icon trivialFont 64).line_w ∧
     (64 : ℤ) - (create_icon trivialFont 64).line_w < 2 * (create_icon trivialFont 64).line_x + 2 ∧
     (create_icon trivialFont 64).line_y =
       pyInt ((create_icon trivialFont 64).y + 1000 * (create_icon trivialFont 64).bb.y1 +
         20 * (64 : ℤ)) ∧
     DrawOp.rect (create_icon trivialFont 64).line_x (create_icon trivialFont 64).line_y
         ((create_icon trivialFont 64).line_x + (create_icon trivialFont 64).line_w)
         ((create_icon trivialFont 64).line_y + (create_icon trivialFont 64).line_h) WINE_COLOR ∈
       (create_icon trivialFont 64).ops) :=
  ⟨by decide, accent_bar_geometry trivialFont 64 (by decide)⟩

/-- C1: the accent bar is drawn if and only if `S ≥ 64`: a rectangle in the
accent colour is among the drawing statements exactly when `64 ≤ S`; and for
`S < 64` every pixel not covered by the glyph is the background colour —
which differs from the accent colour — so no accent-coloured pixel region
other than background and glyph pixels exists. -/
theorem accent_bar_iff_size_64 (F : FontEnv) (S : ℕ) :
    ((64 ≤ S) ↔ ∃ a b c d, DrawOp.rect a b c d WINE_COLOR ∈ (create_icon F S).ops) ∧
    (S < 64 → ∀ px py,
      F.ink (create_icon F S).font_size ((create_icon F S).x, (create_icon F S).y)
          (px, py) = none →
      (create_icon F S).img.pixel px py = BG_COLOR) ∧
    BG_COLOR ≠ WINE_COLOR := by
  refine ⟨⟨fun h64 => ?_, fun hex => ?_⟩, fun hlt px py hink => ?_, by decide⟩
  · refine ⟨line_x_of S, line_y_of F S, line_x_of S + line_w_of S,
      line_y_of F S + line_h_of S, ?_⟩
    show _ ∈ ops_of F S
    simp [ops_of, h64]
  · obtain ⟨a, b, c, d, hm⟩ := hex
    by_contra hn
    have hm' : DrawOp.rect a b c d WINE_COLOR ∈ ops_of F S := hm
    simp [ops_of, hn] at hm'
  · have hn : ¬ 64 ≤ S := by omega
    have hink' : F.ink (font_size_of S) (x_of F S, y_of F S) (px, py) = none := hink
    show renderOps F (ops_of F S) px py = BG_COLOR
    unfold ops_of
    rw [if_neg hn]
    simp only [renderOps, List.append_nil, List.foldl, applyOp]
    rw [hink']
    rfl

/-- C1 (witness): at size 32 the corner pixel is background (the degenerate
glyph covers nothing) and no accent rectangle is among the drawing
statements. -/
theorem accent_bar_iff_size_64_at_32 :
    (create_icon trivialFont 32).img.pixel 0 0 = BG_COLOR ∧
    ¬ (∃ a b c d, DrawOp.rect a b c d WINE_COLOR ∈ (create_icon trivialFont 32).ops) := by
  have h := accent_bar_iff_size_64 trivialFont 32
  exact ⟨h.2.1 (by decide) 0 0 rfl, fun hx => absurd (h.1.mpr hx) (by decide)⟩

/-- C8: the canvas of every render has exact dimensions `S × S`; the initial
drawing statement fills it entirely with the fixed background colour; and
every pixel in the left or right edge column (corners included), not
overlapped by the accent bar, is the background colour — provided the
measured glyph box leaves at least a 2-pixel margin (`text_w ≤ S - 4`),
which is what centring a 0.72-scaled glyph guarantees.  The same fill,
centring and threshold logic (`create_icon`) serves every size; only `S`
varies. -/
theorem canvas_size_and_background (F : FontEnv) (S : ℕ) (hS : 0 < S)
    (htw : (create_icon F S).text_w ≤ (S : ℤ) - 4) :
    (create_icon F S).img.width = S ∧
    (create_icon F S).img.height = S ∧
    (∀ px py, renderOps F ((create_icon F S).ops.take 1) px py = BG_COLOR) ∧
    (∀ px py, (px = 0 ∨ px = (S : ℤ) - 1) →
      (64 ≤ S →
        ¬ ((create_icon F S).line_x ≤ px ∧
           px ≤ (create_icon F S).line_x + (create_icon F S).line_w ∧
           (create_icon F S).line_y ≤ py ∧
           py ≤ (create_icon F S).line_y + (create_icon F S).line_h)) →
      (create_icon F S).img.pixel px py = BG_COLOR) := by
  refine ⟨rfl, rfl, fun px py => ?_, fun px py hpx hacc => ?_⟩
  · show renderOps F ((ops_of F S).take 1) px py = BG_COLOR
    have ht : (ops_of F S).take 1 = [DrawOp.fill S S BG_COLOR] := rfl
    rw [ht]
    rfl
  · have htw' : text_w_of F S ≤ (S : ℤ) - 4 := htw
    have hink : F.ink (font_size_of S) (x_of F S, y_of F S) (px, py) = none := by
      cases hopt : F.ink (font_size_of S) (x_of F S, y_of F S) (px, py) with
      | none => rfl
      | some c =>
        exfalso
        obtain ⟨h1, h2, _, _⟩ := F.ink_in_bbox _ _ _ _ hopt
        have hx0 : x_of F S =
            500 * ((S : ℤ) - text_w_of F S) - 1000 * (F.bbox (font_size_of S)).x0 := rfl
        have htww : text_w_of F S =
            (F.bbox (font_size_of S)).x1 - (F.bbox (font_size_of S)).x0 := rfl
        rcases hpx with h0 | hS1
        · subst h0; omega
        · subst hS1; omega
    have hacc' : 64 ≤ S →
        ¬ (line_x_of S ≤ px ∧ px ≤ line_x_of S + line_w_of S ∧
           line_y_of F S ≤ py ∧ py ≤ line_y_of F S + line_h_of S) := hacc
    show renderOps F (ops_of F S) px py = BG_COLOR
    unfold ops_of
    by_cases h64 : 64 ≤ S
    · rw [if_pos h64]
      simp only [renderOps, List.cons_append, List.nil_append, List.foldl, applyOp]
      rw [if_neg (hacc' h64), hink]
      rfl
    · rw [if_neg h64]
      simp only [renderOps, List.append_nil, List.foldl, applyOp]
      rw [hink]
      rfl

/-- C8 (witness): the concrete render at size 32 has a 32×32 canvas whose
top-left corner pixel is the background colour. -/
theorem canvas_size_and_background_at_32 :
    0 < 32 ∧ (create_icon trivialFont 32).text_w ≤ (32 : ℤ) - 4 ∧
    (create_icon trivialFont 32).img.width = 32 ∧
    (create_icon trivialFont 32).img.pixel 0 0 = BG_COLOR := by
  have h := canvas_size_and_background trivialFont 32 (by decide) (by decide)
  exact ⟨by decide, by decide, h.1,
    h.2.2.2 0 0 (Or.inl rfl) (fun h64 => absurd h64 (by decide))⟩

/-- The name of a file-write event into the output directory, if any. -/
def staticWriteName : Ev → Option String
  | Ev.writeFile Dir.static n => some n
  | _ => none

/-- The target of any file-write event. -/
def writeName : Ev → Option (Dir × String)
  | Ev.writeFile d n => some (d, n)
  | _ => none

/-- The file a "Created …" summary line reports. -/
def createdName : Ev → Option (Dir × String)
  | Ev.printCreated d n => some (d, n)
  | _ => none

/-- C2: one run of `main` writes into the output directory exactly the six
files of the spec (no duplicates, so six distinct files), prints exactly one
"Created …" summary line per created file (seven in all, counting the
transient 16×16 PNG written to the TEMP directory), and ends with a final
itemized list of exactly 6 entries after the "Done! Generated:" line. -/
theorem main_produces_six_files :
    mainEvents.filterMap staticWriteName =
      ["favicon-32x32.png", "icon-192.png", "icon-512.png",
       "favicon.ico", "favicon.svg", "apple-touch-icon.png"] ∧
    (mainEvents.filterMap staticWriteName).length = 6 ∧
    (mainEvents.filterMap staticWriteName).Nodup ∧
    mainEvents.filterMap createdName = mainEvents.filterMap writeName ∧
    (mainEvents.filterMap createdName).length = 7 ∧
    mainEvents.drop (mainEvents.length - 7) =
      [Ev.printLine ("\nDone! Generated:"),
       Ev.printLine ("  - favicon.ico (16+32, proper ICO format)"),
       Ev.printLine ("  - favicon.svg (scalable, dark mode aware)"),
       Ev.printLine ("  - favicon-32x32.png"),
       Ev.printLine ("  - apple-touch-icon.png (180x180)"),
       Ev.printLine ("  - icon-192.png (PWA)"),
       Ev.printLine ("  - icon-512.png (PWA install/splash)")] := by
  refine ⟨?_, ?_, ?_, ?_, ?_, ?_⟩ <;> decide

/-- C3: for any font environment, the ICO save called with the previously
rendered 16×16 and 32×32 canvases embeds exactly those two canvases, as
frames of dimensions 16×16 and 32×32, both taken verbatim (resample flag
`false`) — neither is derived by scaling the other. -/
theorem ico_embeds_both_canvases (F : FontEnv) :
    create_ico_frames [(create_icon F 16).img, (create_icon F 32).img] =
      [((create_icon F 16).img, false), ((create_icon F 32).img, false)] ∧
    (create_ico_frames [(create_icon F 16).img, (create_icon F 32).img]).map
        (fun fr => (fr.1.width, fr.1.height)) = [(16, 16), (32, 32)] :=
  ⟨rfl, rfl⟩

/-- C4: the generator is deterministic in its inputs — two runs whose
environments agree on the font engine and on the PNG and ICO encoders
produce identical file lists: byte-for-byte identical PNG and ICO contents
and textually identical SVG content. -/
theorem generator_deterministic (E E' : Env) (hf : E.font = E'.font)
    (hp : E.pngEncode = E'.pngEncode) (hi : E.icoEncode = E'.icoEncode) :
    mainFiles E = mainFiles E' := by
  obtain ⟨f, p, i⟩ := E
  obtain ⟨f', p', i'⟩ := E'
  cases hf
  cases hp
  cases hi
  rfl

/-- C4 (witness): the determinism theorem applied to two identical concrete
environments. -/
theorem generator_deterministic_at_trivial :
    trivialEnv.font = trivialEnv.font ∧ trivialEnv.pngEncode = trivialEnv.pngEncode ∧
    trivialEnv.icoEncode = trivialEnv.icoEncode ∧ mainFiles trivialEnv = mainFiles trivialEnv :=
  ⟨rfl, rfl, rfl, generator_deterministic trivialEnv trivialEnv rfl rfl rfl⟩

/-- The patterns counted in the SVG document. -/
def patSvgOpen : String := "<svg"

def patSvgClose : String := "</svg>"

def patStyleOpen : String := "<style>"

def patStyleClose : String := "</style>"

def patTextOpen : String := "<text"

def patTextClose : String := "</text>"

def patGlyphQ : String := ">Q</text>"

def patMedia : String := "@media"

/-- The entire conditional style block of the SVG: under a light
color-scheme signal it swaps the background fill to `#FAF9F7` and the text
fill to `#1A1918`. -/
def patLightBlock : String :=
  "@media (prefers-color-scheme: light) \x7b\n      rect \x7b fill: #FAF9F7; \x7d\n      text \x7b fill: #1A1918; \x7d\n    \x7d"

/-- C9: the SVG output opens with an `svg` root and closes it (one opening
and one closing root tag, one style element), contains exactly one
glyph-drawing `text` element whose content is "Q", and exactly one
conditional `@media` style block — the one swapping to the light
background/text colour pair. -/
theorem svg_favicon_structure :
    patSvgOpen.data.isPrefixOf svgContent.data = true ∧
    countOccur svgContent patSvgOpen = 1 ∧
    countOccur svgContent patSvgClose = 1 ∧
    countOccur svgContent patStyleOpen = 1 ∧
    countOccur svgContent patStyleClose = 1 ∧
    countOccur svgContent patTextOpen = 1 ∧
    countOccur svgContent patTextClose = 1 ∧
    countOccur svgContent patGlyphQ = 1 ∧
    countOccur svgContent patMedia = 1 ∧
    countOccur svgContent patLightBlock = 1 := by
  refine ⟨?_, ?_, ?_, ?_, ?_, ?_, ?_, ?_, ?_, ?_⟩ <;> rfl

/-- C10: when the environment variable `TEMP` is unset, the run aborts with
a `KeyError` raised at module import time, with an empty event trace: no
directory is created and no file is written, so the filesystem is left
unchanged. -/
theorem missing_temp_aborts_unchanged (E : Env) (env : String → Option String)
    (h : env TEMP_KEY = none) :
    runProgram env E = (Except.error (PyErr.keyError TEMP_KEY), []) := by
  unfold runProgram
  rw [h]

/-- C10 (witness): the abort at the concrete empty environment. -/
theorem missing_temp_aborts_unchanged_concrete :
    ((fun _ => none : String → Option String) TEMP_KEY = none) ∧
    runProgram (fun _ => none) trivialEnv = (Except.error (PyErr.keyError TEMP_KEY), []) :=
  ⟨rfl, missing_temp_aborts_unchanged trivialEnv (fun _ => none) rfl⟩
